import Mathlib

/-
  Verification development for the stackwise backend (Flask service in
  src/backend).  The Python code is shallowly embedded: JSON-like Python
  values become the inductive type `PyVal`, dictionaries become
  association lists with unique keys, the external Gemini model call is
  abstracted as an explicit `ModelResp` argument, and `json.loads` is
  abstracted as a `parse` function argument (it is an external library
  routine; the claims only need that parsing the empty string fails).
-/

/-- A JSON-like Python value (`None`, `bool`, `int`, `str`, `list`, `dict`).
JSON numbers are modelled as integers; no claim involves fractional values. -/
inductive PyVal where
  | null : PyVal
  | bool : Bool → PyVal
  | int : Int → PyVal
  | str : String → PyVal
  | list : List PyVal → PyVal
  | dict : List (String × PyVal) → PyVal

mutual

/-- Structural equality test on `PyVal` (Python `==` on JSON-like values). -/
def pyBeq : PyVal → PyVal → Bool
  | .null, .null => true
  | .bool a, .bool b => a == b
  | .int a, .int b => a == b
  | .str a, .str b => a == b
  | .list l, .list m => pyBeqList l m
  | .dict d, .dict e => pyBeqDict d e
  | _, _ => false

def pyBeqList : List PyVal → List PyVal → Bool
  | [], [] => true
  | a :: as', b :: bs' => pyBeq a b && pyBeqList as' bs'
  | _, _ => false

def pyBeqDict : List (String × PyVal) → List (String × PyVal) → Bool
  | [], [] => true
  | a :: as', b :: bs' => (a.1 == b.1 && pyBeq a.2 b.2) && pyBeqDict as' bs'
  | _, _ => false

end

instance : BEq PyVal := ⟨pyBeq⟩

/-- `d.get(k)` on a Python dict, as an option. -/
def dget (d : List (String × PyVal)) (k : String) : Option PyVal :=
  (d.find? (fun p => p.1 == k)).map (fun p => p.2)

/-- Python truthiness (`bool(v)`): `None`, `False`, `0`, `""`, `[]`, `{}` are falsy. -/
def pyTruthy : PyVal → Bool
  | .null => false
  | .bool b => b
  | .int n => n != 0
  | .str s => s != ""
  | .list l => !l.isEmpty
  | .dict d => !d.isEmpty

mutual

/-- Python `repr` of a value (string quoting approximated; no claim
evaluates it on a string containing a quote character). -/
def pyRepr : PyVal → String
  | .null => "None"
  | .bool b => if b then "True" else "False"
  | .int n => toString n
  | .str s => "\x27" ++ s ++ "\x27"
  | .list l => "[" ++ String.intercalate ", " (pyReprList l) ++ "]"
  | .dict d => "\x7b" ++ String.intercalate ", " (pyReprEntries d) ++ "\x7d"

def pyReprList : List PyVal → List String
  | [] => []
  | v :: vs => pyRepr v :: pyReprList vs

def pyReprEntries : List (String × PyVal) → List String
  | [] => []
  | e :: es => ("\x27" ++ e.1 ++ "\x27: " ++ pyRepr e.2) :: pyReprEntries es

end

/-- Python `str(v)` as used by f-string interpolation. -/
def pyStr : PyVal → String
  | .str s => s
  | v => pyRepr v

/-- Characters removed by Python `str.strip()`. -/
def isPyWs (c : Char) : Bool :=
  c == ' ' || c == '\t' || c == '\n' || c == '\r' || c == Char.ofNat 11 || c == Char.ofNat 12

/-- Python `str.strip()`. -/
def pystrip (s : String) : String :=
  String.mk (((s.toList.dropWhile isPyWs).reverse.dropWhile isPyWs).reverse)

/-- Python `str.find(c)`: index of the first occurrence, `-1` if absent. -/
def strFind (s : String) (c : Char) : Int :=
  match s.toList.findIdx? (fun x => x == c) with
  | some i => Int.ofNat i
  | none => -1

/-- Python `str.rfind(c)`: index of the last occurrence, `-1` if absent. -/
def strRFind (s : String) (c : Char) : Int :=
  match s.toList.reverse.findIdx? (fun x => x == c) with
  | some i => Int.ofNat (s.toList.length - 1 - i)
  | none => -1

/-- Python slice `s[a:b]` for the non-negative indices used in this code. -/
def pySliceStr (s : String) (a b : Int) : String :=
  String.mk ((s.toList.drop a.toNat).take (b.toNat - a.toNat))

/-- The opening-brace character (code point 123). -/
def lbraceChar : Char := Char.ofNat 123

/-- The closing-brace character (code point 125). -/
def rbraceChar : Char := Char.ofNat 125

/-- Outcome of one call to the external model, as observed by the code:
an exception while calling / reading the response, a blocked or empty
response (`not response.parts`, with its feedback text), or a text body. -/
inductive ModelResp where
  | raised (msg : String)
  | blocked (feedback : String)
  | text (body : String)

/-- An HTTP-level endpoint outcome: JSON payload with status, or an error
message with status. -/
inductive ApiResp where
  | ok (payload : PyVal) (status : Nat)
  | err (message : String) (status : Nat)

/-! ## src/backend/app.py -/

/-- Key membership in a Python dict (`k in d`); only dict receivers occur on
the claim-relevant paths (a non-dict receiver raises in the source and is
rejected by the service boundary before these functions run). -/
def hasKey (v : PyVal) (k : String) : Bool :=
  match v with
  | .dict d => (dget d k).isSome
  | _ => false

/-- The three constant nodes of the mock graph (app.py lines 74-93). -/
def mock_nodes : List PyVal :=
  [ .dict [("id", .str "mock_node_react"), ("type", .str "techNode"),
           ("position", .dict [("x", .int 100), ("y", .int 100)]),
           ("data", .dict [("label", .str "React"), ("type", .str "frontend"),
                           ("details", .str "")])],
    .dict [("id", .str "mock_node_flask"), ("type", .str "techNode"),
           ("position", .dict [("x", .int 100), ("y", .int 300)]),
           ("data", .dict [("label", .str "Flask"), ("type", .str "backend"),
                           ("details", .str "PORT=5001")])],
    .dict [("id", .str "mock_node_postgres"), ("type", .str "techNode"),
           ("position", .dict [("x", .int 400), ("y", .int 300)]),
           ("data", .dict [("label", .str "PostgreSQL"), ("type", .str "database"),
                           ("details", .str "DB_URL=...")])] ]

/-- The two constant edges of the mock graph (app.py lines 94-109). -/
def mock_edges : List PyVal :=
  [ .dict [("id", .str "mock_edge_react_flask"), ("source", .str "mock_node_react"),
           ("target", .str "mock_node_flask"), ("type", .str "default"),
           ("markerEnd", .dict [("type", .str "arrowclosed")])],
    .dict [("id", .str "mock_edge_flask_postgres"), ("source", .str "mock_node_flask"),
           ("target", .str "mock_node_postgres"), ("type", .str "default"),
           ("markerEnd", .dict [("type", .str "arrowclosed")])] ]

/-- `create_mock_tech_stack(description)` (app.py lines 70-110): the fixed
fallback graph, carrying the synthetic `"mocked": True` marker.  The
description argument is only printed in the source. -/
def create_mock_tech_stack (_description : String) : PyVal :=
  .dict [("nodes", .list mock_nodes), ("edges", .list mock_edges), ("mocked", .bool true)]

/-- JSON extraction (app.py lines 180-194): slice from the first opening brace
to the last closing brace (inclusive) and parse strictly; `none` stands for the
`ValueError` / `json.JSONDecodeError` paths that the caller turns into the
mock fallback.  `parse` abstracts `json.loads`. -/
def extract_json (parse : String → Option PyVal) (response_text : String) : Option PyVal :=
  let json_start : Int := strFind response_text lbraceChar
  let json_end : Int := strRFind response_text rbraceChar + 1
  if json_start ≠ -1 ∧ json_end ≠ 0 then
    parse (pySliceStr response_text json_start json_end)
  else
    none

/-- Structural schema check (app.py line 197):
checking that key "nodes" and key "edges" are both present and both lists.
A non-dict `tech_stack` raises `AttributeError` in the source, which the
enclosing handler also turns into the mock fallback, so it is modelled as
rejection. -/
def validate_structure (tech_stack : PyVal) : Bool :=
  match tech_stack with
  | .dict d =>
      (match dget d "nodes" with | some (.list _) => true | _ => false) &&
      (match dget d "edges" with | some (.list _) => true | _ => false)
  | _ => false

/-- `generate_graph_from_scratch(description)` (app.py lines 113-207).
`model_present` is the truthiness of the module-level `gemini_model`;
`resp` is the outcome of the single `generate_content` call. -/
def generate_graph_from_scratch (model_present : Bool) (resp : ModelResp)
    (parse : String → Option PyVal) (description : String) : PyVal :=
  if !model_present then create_mock_tech_stack description
  else
    match resp with
    | .raised _ => create_mock_tech_stack description
    | .blocked _ => create_mock_tech_stack description
    | .text response_text =>
        match extract_json parse response_text with
        | none => create_mock_tech_stack description
        | some tech_stack =>
            if validate_structure tech_stack then tech_stack
            else create_mock_tech_stack description

/-- `modify_or_replace_graph(existing_graph_json, user_request)`
(app.py lines 210-303); same pipeline shape as generation, with the
existing graph only feeding the prompt text (not modelled). -/
def modify_or_replace_graph (model_present : Bool) (resp : ModelResp)
    (parse : String → Option PyVal) (_existing_graph_json : PyVal)
    (user_request : String) : PyVal :=
  if !model_present then create_mock_tech_stack user_request
  else
    match resp with
    | .raised _ => create_mock_tech_stack user_request
    | .blocked _ => create_mock_tech_stack user_request
    | .text response_text =>
        match extract_json parse response_text with
        | none => create_mock_tech_stack user_request
        | some tech_stack =>
            if validate_structure tech_stack then tech_stack
            else create_mock_tech_stack user_request

/-- The pop of key "mocked" as it affects the payload
(app.py line 390): remove the `"mocked"` key. -/
def stripMarker (d : List (String × PyVal)) : List (String × PyVal) :=
  d.filter (fun p => p.1 ≠ "mocked")

/-- The `pop` of app.py line 390 lifted to the payload value. -/
def popMocked : PyVal → PyVal
  | .dict d => .dict (stripMarker d)
  | v => v

/-- Tagging a graph with the synthetic marker, exactly as the mock literal
carries it (app.py line 110): set key `"mocked"` to `True`. -/
def tagFallback (d : List (String × PyVal)) : List (String × PyVal) :=
  if d.any (fun p => p.1 == "mocked") then
    d.map (fun p => if p.1 == "mocked" then ("mocked", PyVal.bool true) else p)
  else d ++ [("mocked", PyVal.bool true)]

/-- The branch condition of app.py line 380:
the existing graph is truthy, its "nodes" value is a list, and that list is non-empty.
`Except.error` models the `AttributeError` raised by `.get` on a truthy
non-dict value (caught by the endpoint handler as a 500). -/
def wants_modify (existing_graph : PyVal) : Except Unit Bool :=
  if !pyTruthy existing_graph then Except.ok false
  else
    match existing_graph with
    | .dict d =>
        match dget d "nodes" with
        | some (.list l) => Except.ok (decide (0 < l.length))
        | _ => Except.ok false
    | _ => Except.error ()

/-- `api_generate_graph` (app.py lines 359-400) for a JSON body `body`:
missing/empty prompt → 400; model unconfigured → 503; otherwise dispatch
to modify-or-replace or generate-from-scratch, pop the `"mocked"` marker,
and return the payload with 200.  A dispatch `AttributeError` is caught by
the endpoint handler as a 500. -/
def api_generate_graph (model_present : Bool) (resp : ModelResp)
    (parse : String → Option PyVal) (body : List (String × PyVal)) : ApiResp :=
  let prompt := (dget body "prompt").getD PyVal.null
  if !pyTruthy prompt then ApiResp.err "Missing \x27prompt\x27 in request body" 400
  else if !model_present then ApiResp.err "Gemini API not configured on server." 503
  else
    let existing_graph := (dget body "existingGraph").getD PyVal.null
    match wants_modify existing_graph with
    | Except.error _ =>
        ApiResp.err "An internal server error occurred during graph generation." 500
    | Except.ok true =>
        ApiResp.ok (popMocked (modify_or_replace_graph model_present resp parse
          existing_graph (pyStr prompt))) 200
    | Except.ok false =>
        ApiResp.ok (popMocked (generate_graph_from_scratch model_present resp parse
          (pyStr prompt))) 200

/-! ## src/backend/llm_prompt_builder.py -/

/-- Python `node.get(k)`: `None` when the key is absent (nodes are dicts on
all claim-relevant paths; a non-dict node raises in the source). -/
def pyGet (v : PyVal) (k : String) : PyVal :=
  match v with
  | .dict d => (dget d k).getD PyVal.null
  | _ => PyVal.null

/-- Python `v.get(k, dflt)`: the default is used only when the key is absent. -/
def pyGetD (v : PyVal) (k : String) (dflt : PyVal) : PyVal :=
  match v with
  | .dict d => (dget d k).getD dflt
  | _ => dflt

/-- View a value as the list it is iterated as; the service boundary has
already checked the nodes/edges values are lists when this runs. -/
def asList : PyVal → List PyVal
  | .list l => l
  | _ => []

/-- Assignment into a dict keyed by arbitrary Python values
(the node-label dict of llm_prompt_builder.py line 24): replace the value
of an existing key, otherwise append the new binding. -/
def pdset (d : List (PyVal × PyVal)) (k v : PyVal) : List (PyVal × PyVal) :=
  if d.any (fun p => p.1 == k) then d.map (fun p => if p.1 == k then (k, v) else p)
  else d ++ [(k, v)]

/-- Lookup in a dict keyed by Python values. -/
def pdget (d : List (PyVal × PyVal)) (k : PyVal) : Option PyVal :=
  (d.find? (fun p => p.1 == k)).map (fun p => p.2)

/-- Python `d.get(k, dflt)` on a dict keyed by Python values. -/
def pdgetD (d : List (PyVal × PyVal)) (k : PyVal) (dflt : PyVal) : PyVal :=
  (pdget d k).getD dflt

/-- The label of a node (llm_prompt_builder.py lines 18-20): key "label" of
the node data, defaulting to the node id when the label is absent and to
"Unknown Component" when the id is also absent or falsy. -/
def nodeLabelVal (node : PyVal) : PyVal :=
  let node_id := pyGet node "id"
  let node_data := pyGetD node "data" (.dict [])
  pyGetD node_data "label" (if pyTruthy node_id then node_id else .str "Unknown Component")

/-- The details of a node (llm_prompt_builder.py line 21): key "details" of
the node data, defaulting to "No details provided". -/
def nodeDetailsVal (node : PyVal) : PyVal :=
  let node_data := pyGetD node "data" (.dict [])
  pyGetD node_data "details" (.str "No details provided")

/-- One stack-list line (llm_prompt_builder.py line 22). -/
def stackLine (node : PyVal) : String :=
  "- " ++ pyStr (nodeLabelVal node) ++ ": " ++ pyStr (nodeDetailsVal node)

/-- The stack list items built by the node loop (lines 17-24). -/
def stackItems (nodes : List PyVal) : List String :=
  nodes.map stackLine

/-- The node-label dict built by the node loop (lines 17-24): nodes with a
truthy id are recorded, later nodes overwriting earlier equal ids. -/
def nodeLabels (nodes : List PyVal) : List (PyVal × PyVal) :=
  nodes.foldl (fun acc node =>
    let node_id := pyGet node "id"
    if pyTruthy node_id then pdset acc node_id (nodeLabelVal node) else acc) []

/-- One architecture-list line (llm_prompt_builder.py lines 29-35): edges
whose source or target is missing or falsy yield no line; otherwise the
endpoint labels are looked up, falling back to the raw id value when the
id is not a recorded node id. -/
def edgeLine (labels : List (PyVal × PyVal)) (edge : PyVal) : Option String :=
  let source_id := pyGet edge "source"
  let target_id := pyGet edge "target"
  if pyTruthy source_id && pyTruthy target_id then
    some ("- " ++ pyStr (pdgetD labels source_id source_id) ++ " \u27A1\uFE0F " ++
          pyStr (pdgetD labels target_id target_id))
  else
    none

/-- The architecture list items built by the edge loop (lines 28-36). -/
def edgeItems (labels : List (PyVal × PyVal)) (edges : List PyVal) : List String :=
  edges.filterMap (edgeLine labels)

/-- Substring search over character lists. -/
def listHasSub (pat : List Char) : List Char → Bool
  | [] => pat.isEmpty
  | c :: rest => pat.isPrefixOf (c :: rest) || listHasSub pat rest

/-- Substring test (Python `in` on strings). -/
def strHasSub (pat s : String) : Bool :=
  listHasSub pat.toList s.toList

/-- Split a character list at newline characters (keeping empty pieces). -/
def splitNl : List Char → List Char → List (List Char)
  | [], acc => [acc.reverse]
  | c :: rest, acc =>
      if c = Char.ofNat 10 then acc.reverse :: splitNl rest []
      else splitNl rest (c :: acc)

/-- The lines of a string, split at newline characters. -/
def strLines (s : String) : List String :=
  (splitNl s.toList []).map String.mk

/-- The user-context sanitization of llm_prompt_builder.py lines 39-43.
Line splitting is modelled on the newline character (the source uses
`splitlines`; the per-line strip-and-drop makes the two agree on every
newline-separated input). -/
def processContext (user_context : PyVal) : String :=
  let processed_context :=
    if pyTruthy user_context then pyStr user_context
    else "No specific user requirements provided."
  if processed_context.toList.contains (Char.ofNat 10) || strHasSub "- " processed_context ||
      strHasSub "* " processed_context then
    String.intercalate "\n"
      (((strLines processed_context).filter (fun line => pystrip line ≠ "")).map
        (fun line => "- " ++ pystrip line))
  else if processed_context ≠ "" then "- " ++ processed_context
  else processed_context

/-- The placeholder file-structure block (llm_prompt_builder.py lines 48-50). -/
def file_structure_example : String :=
  "\n(This is a placeholder. Actual structure should be generated based on the stack.)\n"

/-- The f-string template of llm_prompt_builder.py lines 53-98 (before the
final strip), with its four interpolation holes as parameters. -/
def markdownTemplate (stack_list edge_list processed_context : String) : String :=
  "\n# 🛠 Tech Stack Builder Instructions\n\nYou are a powerful, agentic AI developer working inside an IDE environment capable of file system operations and code generation.\n\nYou are tasked with setting up a complete project based on the following tech stack, architecture, file structure guidelines, and user goals. Your output should be primarily the necessary code and file structure modifications.\n\n## 📦 Project Tech Stack\n\nThe core components for this project are:\n" ++
    stack_list ++
    "\n\n## 🔗 Architecture Overview\n\nThe components should interact as follows:\n" ++
    edge_list ++
    "\n\n## 🛠 File Structure Overview\n\nGenerate a project structure that logically organizes the components listed above. Follow common conventions for the specified technologies. A suggested starting point is:\n" ++
    file_structure_example ++
    "\nRefine this structure based on the specific components and their relationships.\n\n## 🧠 User Requirements and Goals\n\nThe primary goals and features requested by the user are:\n" ++
    processed_context ++
    "\n\n## 🎯 Mission for AI\n\nExecute the following steps to build the project:\n\n1.  **Create Project Structure:** Establish the main directories and subdirectories based on the tech stack and best practices (referencing the File Structure Overview).\n2.  **Generate Starter Files:** Create essential configuration files (`package.json`, `requirements.txt`, `.env.example`, `Dockerfile`, etc.) and basic entry point files (`app.py`, `main.js`, `index.html`, etc.) for each service/component.\n3.  **Implement Boilerplate Code:** Add initial, functional code for basic setup (e.g., server initialization, database connection setup, simple API endpoint, basic frontend component).\n4.  **Establish Connections:** Implement basic communication patterns based on the Architecture Overview (e.g., a sample API call from the frontend to the backend, backend query to the database).\n5.  **Add Documentation:** Generate a `README.md` file outlining the project structure, setup instructions (dependencies, environment variables), and how to run each component. Include a `.gitignore` file.\n\n**Critical Instructions:**\n- Prioritize generating runnable, clean, and modular code.\n- Assume the target environment has necessary tools (Node.js, Python, Docker, etc.) installed.\n- Use the details provided in the \"Project Tech Stack\" section (e.g., specific versions, libraries) when generating configurations and code.\n- If specific details are missing, make reasonable assumptions based on modern best practices for the given technologies.\n- Minimize explanatory text in your response; focus on the code and file structure output. Output explanations only if critical for understanding a complex decision.\n- Ensure authentication/authorization flows are considered if mentioned in the requirements.\n    "

/-- `generate_llm_builder_prompt(graph_data, user_context)`
(llm_prompt_builder.py lines 3-100): guard on the graph shape, build the
stack list, the architecture list and the sanitized context, then render
the fixed Markdown template and strip it.  A pure function of its
arguments: the source performs no model call and reads no other state. -/
def generate_llm_builder_prompt (graph_data : PyVal) (user_context : PyVal) : String :=
  if !pyTruthy graph_data || !hasKey graph_data "nodes" || !hasKey graph_data "edges" then
    "# Error: Invalid graph data provided for prompt generation."
  else
    let nodes := asList (pyGetD graph_data "nodes" (.list []))
    let edges := asList (pyGetD graph_data "edges" (.list []))
    let stack_list_items := stackItems nodes
    let stack_list :=
      if !stack_list_items.isEmpty then String.intercalate "\n" stack_list_items
      else "- No specific components defined."
    let node_labels := nodeLabels nodes
    let edge_list_items := edgeItems node_labels edges
    let edge_list :=
      if !edge_list_items.isEmpty then String.intercalate "\n" edge_list_items
      else "- No specific relationships defined."
    let processed_context := processContext user_context
    pystrip (markdownTemplate stack_list edge_list processed_context)

/-! ## src/backend/repo_builder.py -/

/-- Python startswith, over character lists. -/
def strStarts (s pre : String) : Bool :=
  pre.toList.isPrefixOf s.toList

/-- Python endswith, over character lists. -/
def strEnds (s suf : String) : Bool :=
  suf.toList.reverse.isPrefixOf s.toList.reverse

/-- The required script-start marker. -/
def shebangMarker : String := "#!/bin/bash"

/-- The leading code-fence wrapper artifact. -/
def fenceBashMarker : String := "```bash"

/-- The trailing code-fence wrapper artifact. -/
def fenceEndMarker : String := "```"

/-- The warning line prepended when the script still lacks the marker
(repo_builder.py line 132). -/
def repoWarningLine : String :=
  "# Warning: Gemini output did not start with #!/bin/bash. Returning raw output, review before execution."

/-- The one-shot repair of repo_builder.py lines 125-128: when the stripped
script starts with a bash code fence, drop that fence and strip; if the
result ends with a closing fence, drop it and strip again. -/
def repoRepair (bash_script : String) : String :=
  if strStarts bash_script fenceBashMarker then
    let s1 := pystrip (String.mk (bash_script.toList.drop fenceBashMarker.length))
    if strEnds s1 fenceEndMarker then
      pystrip (String.mk (s1.toList.take (s1.toList.length - fenceEndMarker.length)))
    else s1
  else bash_script

/-- The response post-processing of repo_builder.py lines 120-139: strip the
raw response text; if it starts with the marker return it; otherwise repair
once and re-check; if it still lacks the marker return it prefixed with the
warning line (never a mock result). -/
def repoPostProcess (raw : String) : String :=
  let bash_script := pystrip raw
  if strStarts bash_script shebangMarker then bash_script
  else
    let repaired := repoRepair bash_script
    if strStarts repaired shebangMarker then repaired
    else repoWarningLine ++ "\n" ++ repaired

/-- `generate_repo_builder_script_with_gemini(graph_data, user_context, gemini_model)`
(repo_builder.py lines 9-145).  `model_present` is the truthiness of the
model argument; `resp` is the outcome of the single model call; the
user context only feeds the prompt text. -/
def generate_repo_builder_script_with_gemini (graph_data : PyVal)
    (_user_context : String) (model_present : Bool) (resp : ModelResp) : String :=
  if !model_present then "# Error: Gemini model not available."
  else if !pyTruthy graph_data || !hasKey graph_data "nodes" then
    "# Error: Invalid graph data provided for script generation."
  else
    match resp with
    | .raised e => "# Error generating Bash script via Gemini: " ++ e
    | .blocked feedback =>
        "# Error: Gemini response was blocked or empty for bash script generation.\n# Feedback: "
          ++ feedback
    | .text body => repoPostProcess body

/-! ## Shared lemmas -/

/-- A filter keeping every element of a list returns it unchanged. -/
theorem filter_keyne_of_not_mem (g : List (String × PyVal)) (k : String)
    (h : k ∉ g.map Prod.fst) : g.filter (fun p => p.1 ≠ k) = g := by
  induction g with
  | nil => rfl
  | cons p rest ih =>
      simp only [List.map_cons, List.mem_cons, not_or] at h
      have hp : p.1 ≠ k := fun hq => h.1 hq.symm
      simp [List.filter_cons, hp]
      intro a b hab hk
      subst hk
      exact h.2 (List.mem_map_of_mem Prod.fst hab)

/-- A payload produced by the marker pop never carries the marker key. -/
theorem popMocked_no_marker (g : PyVal) (d : List (String × PyVal))
    (hd : popMocked g = PyVal.dict d) (hg : ∃ e, g = PyVal.dict e) :
    "mocked" ∉ d.map Prod.fst := by
  obtain ⟨e, rfl⟩ := hg
  simp only [popMocked, stripMarker] at hd
  cases hd
  intro hmem
  simp only [List.mem_map] at hmem
  obtain ⟨p, hp, hk⟩ := hmem
  have := List.of_mem_filter hp
  simp [hk] at this

/-! ## Claims -/

/-- C1 (counterexample): with the model client absent and any description
(here "anything", with no existing graph), the graph generation/modification
operation of the service boundary returns the 503 service-unavailable error
response, not the Mock Graph payload — contradicting the claim that the
operation returns the Mock Graph rather than surfacing an error. -/
theorem C1_counterexample :
    api_generate_graph false (ModelResp.blocked "") (fun _ => none)
        [("prompt", PyVal.str "anything")] =
      ApiResp.err "Gemini API not configured on server." 503 ∧
    ApiResp.err "Gemini API not configured on server." 503 ≠
      ApiResp.ok (popMocked (create_mock_tech_stack "anything")) 200 :=
  ⟨rfl, fun h => ApiResp.noConfusion h⟩

/-- C1 (amended): when the model client is absent, the internal helpers
`generate_graph_from_scratch` and `modify_or_replace_graph` do return
exactly the constant 3-node/2-edge Mock Graph for every description; but
the service operation checks model availability first and returns a 503
error, so through the service boundary the absence of the model surfaces
an error instead of the Mock Graph. -/
theorem C1_amended_fallback :
    ∀ (description : String) (resp : ModelResp) (parse : String → Option PyVal)
      (existing : PyVal) (body : List (String × PyVal)),
      generate_graph_from_scratch false resp parse description =
        create_mock_tech_stack description ∧
      modify_or_replace_graph false resp parse existing description =
        create_mock_tech_stack description ∧
      mock_nodes.length = 3 ∧ mock_edges.length = 2 ∧
      (pyTruthy ((dget body "prompt").getD PyVal.null) = true →
        api_generate_graph false resp parse body =
          ApiResp.err "Gemini API not configured on server." 503) := by
  intro description resp parse existing body
  refine ⟨rfl, rfl, rfl, rfl, ?_⟩
  intro h
  simp [api_generate_graph, h]

/-- C1 (witness for the amended theorem): at a concrete body carrying the
prompt "anything", the 503 error case fires. -/
theorem C1_amended_fallback_witness :
    generate_graph_from_scratch false (ModelResp.blocked "") (fun _ => none) "anything" =
      create_mock_tech_stack "anything" ∧
    api_generate_graph false (ModelResp.blocked "") (fun _ => none)
        [("prompt", PyVal.str "anything")] =
      ApiResp.err "Gemini API not configured on server." 503 :=
  ⟨(C1_amended_fallback "anything" (ModelResp.blocked "") (fun _ => none) PyVal.null
      [("prompt", PyVal.str "anything")]).1,
   (C1_amended_fallback "anything" (ModelResp.blocked "") (fun _ => none) PyVal.null
      [("prompt", PyVal.str "anything")]).2.2.2.2 rfl⟩

/-- C2: JSON extraction locates the first opening brace (index `a`) and the
last closing brace (index `b`); when both exist and the first precedes the
last, the enclosed substring (characters `a` through `b`) is handed to the
strict JSON parser and its result is the extraction result; when either
brace is missing, or the braces are in the wrong order, or the parser
rejects the substring, extraction fails, and a failed extraction makes the
generation pipeline fall back to the Mock Graph.  The strict parser is
abstract; the wrong-order case only needs that it rejects the empty
string, which `json.loads` does. -/
theorem C2_extraction :
    ∀ (parse : String → Option PyVal) (text : String),
      parse "" = none →
      (∀ a b : Int, strFind text lbraceChar = a → strRFind text rbraceChar = b →
        0 ≤ a → 0 ≤ b → a < b →
        extract_json parse text = parse (pySliceStr text a (b + 1)) ∧
        pySliceStr text a (b + 1) =
          String.mk ((text.toList.drop a.toNat).take (b.toNat + 1 - a.toNat))) ∧
      ((strFind text lbraceChar = -1 ∨ strRFind text rbraceChar = -1) →
        extract_json parse text = none) ∧
      (∀ a b : Int, strFind text lbraceChar = a → strRFind text rbraceChar = b →
        0 ≤ a → 0 ≤ b → b < a →
        extract_json parse text = none) ∧
      (extract_json parse text = none →
        ∀ description : String,
          generate_graph_from_scratch true (ModelResp.text text) parse description =
            create_mock_tech_stack description) := by
  intro parse text hempty
  refine ⟨?_, ?_, ?_, ?_⟩
  · intro a b ha hb ha0 hb0 hab
    have h1 : a ≠ -1 := by omega
    have h2 : b + 1 ≠ 0 := by omega
    constructor
    · simp only [extract_json, ha, hb]
      rw [if_pos ⟨h1, h2⟩]
    · simp only [pySliceStr]
      congr 2
      omega
  · intro h
    cases h with
    | inl h =>
        simp only [extract_json, h]
        rw [if_neg]
        intro hc
        exact hc.1 rfl
    | inr h =>
        simp only [extract_json, h]
        rw [if_neg]
        intro hc
        exact hc.2 (by norm_num)
  · intro a b ha hb ha0 hb0 hba
    have h1 : a ≠ -1 := by omega
    have h2 : b + 1 ≠ 0 := by omega
    simp only [extract_json, ha, hb]
    rw [if_pos ⟨h1, h2⟩]
    have hsl : pySliceStr text a (b + 1) = "" := by
      simp only [pySliceStr]
      have : (b + 1).toNat - a.toNat = 0 := by omega
      rw [this]
      rfl
    rw [hsl, hempty]
  · intro hfail description
    simp [generate_graph_from_scratch, hfail]

/-- A toy strict parser recognizing exactly the serialized empty graph
object; it rejects the empty string, like every strict JSON parser. -/
def toyParse (s : String) : Option PyVal :=
  if s = "\x7b\"nodes\":[],\"edges\":[]\x7d" then
    some (PyVal.dict [("nodes", PyVal.list []), ("edges", PyVal.list [])])
  else none

/-- Model output wrapping the empty graph object in prose and a code fence. -/
def fencedEmptyGraphText : String :=
  "Sure! ```json\n\x7b\"nodes\":[],\"edges\":[]\x7d\n```"

/-- C2 (witness): on concrete model output that wraps a well-formed JSON
object in prose and a code fence, extraction returns exactly the parsed
object. -/
theorem C2_extraction_witness :
    extract_json toyParse fencedEmptyGraphText =
      some (PyVal.dict [("nodes", PyVal.list []), ("edges", PyVal.list [])]) := by
  have h := ((C2_extraction toyParse fencedEmptyGraphText rfl).1 14 36 rfl rfl
    (by norm_num) (by norm_num) (by norm_num)).1
  rw [h]
  rfl

/-- C3: the structural schema check accepts a parsed value exactly when it
is an object whose "nodes" field and "edges" field are both present and
both sequences; both empty sequences are accepted; an accepted extraction
result is returned by the generation pipeline as-is (no fallback), and a
rejected one triggers the Mock Graph fallback. -/
theorem C3_schema_validator :
    ∀ ts : PyVal,
      (validate_structure ts = true ↔
        ∃ (d : List (String × PyVal)) (nl el : List PyVal),
          ts = PyVal.dict d ∧ dget d "nodes" = some (PyVal.list nl) ∧
          dget d "edges" = some (PyVal.list el)) ∧
      validate_structure (PyVal.dict [("nodes", PyVal.list []), ("edges", PyVal.list [])]) =
        true ∧
      (∀ (parse : String → Option PyVal) (text description : String),
        extract_json parse text = some ts → validate_structure ts = true →
        generate_graph_from_scratch true (ModelResp.text text) parse description = ts) ∧
      (∀ (parse : String → Option PyVal) (text description : String),
        extract_json parse text = some ts → validate_structure ts = false →
        generate_graph_from_scratch true (ModelResp.text text) parse description =
          create_mock_tech_stack description) := by
  intro ts
  refine ⟨?_, rfl, ?_, ?_⟩
  · constructor
    · intro h
      cases ts with
      | dict d =>
          simp only [validate_structure, Bool.and_eq_true] at h
          obtain ⟨h1, h2⟩ := h
          refine ⟨d, ?_⟩
          rcases hn : dget d "nodes" with _ | vn
          · rw [hn] at h1; simp at h1
          · rcases he : dget d "edges" with _ | ve
            · rw [he] at h2; simp at h2
            · cases vn with
              | list nl =>
                  cases ve with
                  | list el =>
                      exact ⟨nl, el, rfl, rfl, rfl⟩
                  | null => rw [he] at h2; simp at h2
                  | bool b => rw [he] at h2; simp at h2
                  | int n => rw [he] at h2; simp at h2
                  | str s => rw [he] at h2; simp at h2
                  | dict e => rw [he] at h2; simp at h2
              | null => rw [hn] at h1; simp at h1
              | bool b => rw [hn] at h1; simp at h1
              | int n => rw [hn] at h1; simp at h1
              | str s => rw [hn] at h1; simp at h1
              | dict e => rw [hn] at h1; simp at h1
      | null => simp [validate_structure] at h
      | bool b => simp [validate_structure] at h
      | int n => simp [validate_structure] at h
      | str s => simp [validate_structure] at h
      | list l => simp [validate_structure] at h
    · rintro ⟨d, nl, el, rfl, hn, he⟩
      simp [validate_structure, hn, he]
  · intro parse text description hext hval
    simp [generate_graph_from_scratch, hext, hval]
  · intro parse text description hext hval
    simp [generate_graph_from_scratch, hext, hval]

/-- C3 (witness): the fenced empty-graph model output extracts to the
object with empty "nodes" and "edges" sequences, the validator accepts it,
and the pipeline returns exactly that empty graph, not the Mock Graph. -/
theorem C3_schema_validator_witness :
    validate_structure (PyVal.dict [("nodes", PyVal.list []), ("edges", PyVal.list [])]) =
      true ∧
    generate_graph_from_scratch true (ModelResp.text fencedEmptyGraphText) toyParse
        "a simple blog with comments" =
      PyVal.dict [("nodes", PyVal.list []), ("edges", PyVal.list [])] :=
  ⟨(C3_schema_validator (PyVal.dict [("nodes", PyVal.list []), ("edges", PyVal.list [])])).2.1,
   (C3_schema_validator (PyVal.dict [("nodes", PyVal.list []), ("edges", PyVal.list [])])).2.2.1
     toyParse fencedEmptyGraphText "a simple blog with comments" rfl rfl⟩

/-- C4: tagging a graph that does not already carry the synthetic "mocked"
marker and then stripping the marker returns the graph unchanged (no other
field is altered); and the constant Mock Graph of the source is exactly
the untagged nodes/edges object with the marker tagged on. -/
theorem C4_marker_roundtrip :
    ∀ (g : List (String × PyVal)) (description : String),
      "mocked" ∉ g.map Prod.fst →
      stripMarker (tagFallback g) = g ∧
      create_mock_tech_stack description =
        PyVal.dict (tagFallback [("nodes", PyVal.list mock_nodes),
          ("edges", PyVal.list mock_edges)]) := by
  intro g description h
  refine ⟨?_, rfl⟩
  have hany : g.any (fun p => p.1 == "mocked") = false := by
    rw [List.any_eq_false]
    intro p hp
    simp only [beq_iff_eq]
    intro hq
    exact h (hq ▸ List.mem_map_of_mem Prod.fst hp)
  simp only [tagFallback, hany, Bool.false_eq_true, if_false]
  simp only [stripMarker, List.filter_append]
  rw [filter_keyne_of_not_mem g "mocked" h]
  simp

/-- C4 (witness): the round-trip at a concrete marker-free graph. -/
theorem C4_marker_roundtrip_witness :
    stripMarker (tagFallback [("nodes", PyVal.list []), ("edges", PyVal.list [])]) =
      [("nodes", PyVal.list []), ("edges", PyVal.list [])] :=
  (C4_marker_roundtrip [("nodes", PyVal.list []), ("edges", PyVal.list [])] "d"
    (by simp)).1

/-- C5: building the agent prompt is a pure deterministic function with no
model call: the embedded `generate_llm_builder_prompt` is a function of the
graph and the user context alone (the source reads no other state and
invokes no model), so two calls on the same inputs yield byte-identical
Markdown. -/
theorem C5_builder_deterministic :
    ∀ (graph_data user_context : PyVal),
      generate_llm_builder_prompt graph_data user_context =
        generate_llm_builder_prompt graph_data user_context :=
  fun _ _ => rfl

/-- A concrete graph with one node "a" (label "A") and one edge whose
target "zzz" matches no declared node id. -/
def danglingEdgeGraph : PyVal :=
  PyVal.dict
    [("nodes", PyVal.list [PyVal.dict [("id", PyVal.str "a"),
        ("data", PyVal.dict [("label", PyVal.str "A"), ("details", PyVal.str "d")])]]),
     ("edges", PyVal.list [PyVal.dict [("id", PyVal.str "e1"),
        ("source", PyVal.str "a"), ("target", PyVal.str "zzz")]])]

set_option maxRecDepth 10000 in
/-- C6 (counterexample): for the concrete graph whose only edge targets the
undeclared node id "zzz", the architecture list of the agent prompt does
NOT omit that edge: it contains exactly the line "- A into zzz" (the raw id
standing in for the missing label), and the full Markdown output contains
that line, contradicting the claim that the line is omitted. -/
theorem C6_counterexample :
    edgeItems
        (nodeLabels (asList (pyGetD danglingEdgeGraph "nodes" (PyVal.list []))))
        (asList (pyGetD danglingEdgeGraph "edges" (PyVal.list []))) =
      ["- A ➡️ zzz"] ∧
    strHasSub "- A ➡️ zzz"
      (generate_llm_builder_prompt danglingEdgeGraph (PyVal.str "ctx")) = true :=
  ⟨rfl, by decide⟩

/-- C6 (amended): in the agent-prompt architecture list, an edge whose
source and target are present and truthy always yields a line — when an
endpoint id is not a recorded node id, the raw id value itself stands in
for the label rather than the line being omitted; a line is omitted only
when the source or the target is missing or falsy; and every produced line
appears in the architecture list, with no error raised (the list is built
totally). -/
theorem C6_amended_edge_rendering :
    ∀ (labels : List (PyVal × PyVal)) (edges : List PyVal) (edge s t : PyVal),
      pyGet edge "source" = s → pyGet edge "target" = t →
      (pyTruthy s = true → pyTruthy t = true → pdget labels t = none →
        edgeLine labels edge =
          some ("- " ++ pyStr (pdgetD labels s s) ++ " ➡️ " ++ pyStr t)) ∧
      (pyTruthy s = false ∨ pyTruthy t = false → edgeLine labels edge = none) ∧
      (edge ∈ edges → ∀ line, edgeLine labels edge = some line →
        line ∈ edgeItems labels edges) := by
  intro labels edges edge s t hs ht
  refine ⟨?_, ?_, ?_⟩
  · intro hts htt hmiss
    simp only [edgeLine, hs, ht, hts, htt, Bool.and_self, if_true]
    simp [pdgetD, hmiss]
  · intro h
    cases h with
    | inl h => simp [edgeLine, hs, ht, h]
    | inr h => simp [edgeLine, hs, ht, h]
  · intro hmem line hline
    exact List.mem_filterMap.mpr ⟨edge, hmem, hline⟩

/-- C6 (witness for the amended theorem): the dangling edge of the concrete
graph yields the line with the raw target id, and that line is in the
architecture list. -/
theorem C6_amended_edge_rendering_witness :
    edgeLine [(PyVal.str "a", PyVal.str "A")]
        (PyVal.dict [("id", PyVal.str "e1"), ("source", PyVal.str "a"),
          ("target", PyVal.str "zzz")]) =
      some ("- A ➡️ zzz") ∧
    "- A ➡️ zzz" ∈
      edgeItems [(PyVal.str "a", PyVal.str "A")]
        [PyVal.dict [("id", PyVal.str "e1"), ("source", PyVal.str "a"),
          ("target", PyVal.str "zzz")]] := by
  have h := C6_amended_edge_rendering [(PyVal.str "a", PyVal.str "A")]
    [PyVal.dict [("id", PyVal.str "e1"), ("source", PyVal.str "a"),
      ("target", PyVal.str "zzz")]]
    (PyVal.dict [("id", PyVal.str "e1"), ("source", PyVal.str "a"),
      ("target", PyVal.str "zzz")])
    (PyVal.str "a") (PyVal.str "zzz") rfl rfl
  have h1 := h.1 rfl rfl rfl
  refine ⟨?_, ?_⟩
  · rw [h1]
    rfl
  · exact h.2.2 (List.mem_singleton.mpr rfl) _ h1

/-- C7: for a model response to the build-repo-script operation, the
stripped text is returned as-is when it already starts with the
"#!/bin/bash" marker; otherwise it is repaired exactly once — a leading
bash code-fence marker is stripped and, if a trailing fence marker then
remains at the end, it is stripped too — and re-checked; if the repaired
text still lacks the marker, the operation returns it prefixed with the
explicit warning line (never a mock result); and on the successful-call
path the operation returns exactly this post-processing of the response
text. -/
theorem C7_repo_script_repair :
    ∀ (raw t : String), pystrip raw = t →
      (strStarts t shebangMarker = true → repoPostProcess raw = t) ∧
      (strStarts t shebangMarker = false →
        strStarts (repoRepair t) shebangMarker = true →
        repoPostProcess raw = repoRepair t) ∧
      (strStarts t shebangMarker = false →
        strStarts (repoRepair t) shebangMarker = false →
        repoPostProcess raw = repoWarningLine ++ "\n" ++ repoRepair t) ∧
      (strStarts t fenceBashMarker = false → repoRepair t = t) ∧
      (strStarts t fenceBashMarker = true →
        repoRepair t =
          (let s1 := pystrip (String.mk (t.toList.drop fenceBashMarker.length))
           if strEnds s1 fenceEndMarker then
             pystrip (String.mk (s1.toList.take (s1.toList.length - fenceEndMarker.length)))
           else s1)) ∧
      (∀ (g : PyVal) (c : String), pyTruthy g = true → hasKey g "nodes" = true →
        generate_repo_builder_script_with_gemini g c true (ModelResp.text raw) =
          repoPostProcess raw) := by
  intro raw t hstrip
  subst hstrip
  refine ⟨?_, ?_, ?_, ?_, ?_, ?_⟩
  · intro h1
    simp [repoPostProcess, h1]
  · intro h1 h2
    simp [repoPostProcess, h1, h2]
  · intro h1 h2
    simp [repoPostProcess, h1, h2]
  · intro h1
    simp [repoRepair, h1]
  · intro h1
    simp [repoRepair, h1]
  · intro g c hg hk
    simp [generate_repo_builder_script_with_gemini, hg, hk]

/-- C7 (witness): a fenced script is repaired to the bare script; a
non-script answer is returned behind the warning line; a well-formed
script is returned as-is. -/
theorem C7_repo_script_repair_witness :
    repoPostProcess "```bash\n#!/bin/bash\nset -e\n```" = "#!/bin/bash\nset -e" ∧
    repoPostProcess "hello" = repoWarningLine ++ "\n" ++ "hello" ∧
    repoPostProcess "#!/bin/bash\necho done\n" = "#!/bin/bash\necho done" := by
  refine ⟨?_, ?_, ?_⟩
  · have h := (C7_repo_script_repair "```bash\n#!/bin/bash\nset -e\n```"
      (pystrip "```bash\n#!/bin/bash\nset -e\n```") rfl).2.1 rfl rfl
    rw [h]
    rfl
  · have h := (C7_repo_script_repair "hello" (pystrip "hello") rfl).2.2.1 rfl rfl
    rw [h]
    rfl
  · have h := (C7_repo_script_repair "#!/bin/bash\necho done\n"
      (pystrip "#!/bin/bash\necho done\n") rfl).1 rfl
    rw [h]
    rfl

/-- C8: for a request whose existing graph is absent (None) or an object,
the modify-or-replace path is chosen exactly when the existing graph is
truthy and its "nodes" field is a list with at least one element; in every
other such case the dispatch chooses fresh generation (it never errors on
this domain); and with the model configured and a truthy prompt, the
endpoint result is the marker-stripped output of the helper selected by
this dispatch. -/
theorem C8_dispatch :
    ∀ (eg : PyVal),
      (eg = PyVal.null ∨ ∃ d, eg = PyVal.dict d) →
      (wants_modify eg = Except.ok true ↔
        pyTruthy eg = true ∧ ∃ (d : List (String × PyVal)) (l : List PyVal),
          eg = PyVal.dict d ∧ dget d "nodes" = some (PyVal.list l) ∧ 0 < l.length) ∧
      (wants_modify eg = Except.ok true ∨ wants_modify eg = Except.ok false) ∧
      (∀ (resp : ModelResp) (parse : String → Option PyVal)
         (body : List (String × PyVal)),
        pyTruthy ((dget body "prompt").getD PyVal.null) = true →
        (dget body "existingGraph").getD PyVal.null = eg →
        (wants_modify eg = Except.ok true →
          api_generate_graph true resp parse body =
            ApiResp.ok (popMocked (modify_or_replace_graph true resp parse eg
              (pyStr ((dget body "prompt").getD PyVal.null)))) 200) ∧
        (wants_modify eg = Except.ok false →
          api_generate_graph true resp parse body =
            ApiResp.ok (popMocked (generate_graph_from_scratch true resp parse
              (pyStr ((dget body "prompt").getD PyVal.null)))) 200)) := by
  intro eg hdom
  refine ⟨?_, ?_, ?_⟩
  · constructor
    · intro h
      cases hdom with
      | inl hnull => subst hnull; simp [wants_modify, pyTruthy] at h
      | inr hdict =>
          obtain ⟨d, rfl⟩ := hdict
          by_cases htr : pyTruthy (PyVal.dict d) = true
          · refine ⟨htr, d, ?_⟩
            simp only [wants_modify, htr, Bool.not_true, Bool.false_eq_true,
              if_false] at h
            rcases hn : dget d "nodes" with _ | vn
            · rw [hn] at h; simp at h
            · rw [hn] at h
              cases vn with
              | list l =>
                  refine ⟨l, rfl, rfl, ?_⟩
                  simp only [Except.ok.injEq] at h
                  exact of_decide_eq_true h
              | null => simp at h
              | bool b => simp at h
              | int n => simp at h
              | str st => simp at h
              | dict e => simp at h
          · rw [Bool.not_eq_true] at htr
            simp [wants_modify, htr] at h
    · rintro ⟨htr, d, l, rfl, hn, hl⟩
      simp [wants_modify, htr, hn, hl]
  · cases hdom with
    | inl hnull => subst hnull; right; rfl
    | inr hdict =>
        obtain ⟨d, rfl⟩ := hdict
        by_cases htr : pyTruthy (PyVal.dict d) = true
        · simp only [wants_modify, htr, Bool.not_true, Bool.false_eq_true, if_false]
          rcases hn : dget d "nodes" with _ | vn
          · right; rfl
          · cases vn with
            | list l =>
                by_cases hl : 0 < l.length
                · left; simp [hl]
                · right; simp [hl]
            | null => right; rfl
            | bool b => right; rfl
            | int n => right; rfl
            | str st => right; rfl
            | dict e => right; rfl
        · rw [Bool.not_eq_true] at htr
          right
          simp [wants_modify, htr]
  · intro resp parse body hp hegq
    constructor
    · intro hw
      simp [api_generate_graph, hp, hegq, hw]
    · intro hw
      simp [api_generate_graph, hp, hegq, hw]

/-- C8 (witness): a non-empty existing graph dispatches to modify; an
absent one dispatches to fresh generation. -/
theorem C8_dispatch_witness :
    wants_modify (PyVal.dict [("nodes", PyVal.list [PyVal.dict [("id", PyVal.str "a")]])]) =
      Except.ok true ∧
    wants_modify PyVal.null = Except.ok false := by
  constructor
  · exact (C8_dispatch
      (PyVal.dict [("nodes", PyVal.list [PyVal.dict [("id", PyVal.str "a")]])])
      (Or.inr ⟨_, rfl⟩)).1.mpr
      ⟨rfl, [("nodes", PyVal.list [PyVal.dict [("id", PyVal.str "a")]])],
        [PyVal.dict [("id", PyVal.str "a")]], rfl, rfl, by norm_num⟩
  · rcases (C8_dispatch PyVal.null (Or.inl rfl)).2.1 with h | h
    · exact absurd (((C8_dispatch PyVal.null (Or.inl rfl)).1.mp h).1) (by simp [pyTruthy])
    · exact h

/-- C9: every successful (200) payload of the graph endpoint is free of the
synthetic "mocked" marker key — the pop at app.py line 390 removes it
unconditionally before the response is produced, including when a
validated model-produced graph itself carries a "mocked" key. -/
theorem C9_no_marker_in_response :
    ∀ (model_present : Bool) (resp : ModelResp) (parse : String → Option PyVal)
      (body : List (String × PyVal)) (payload : PyVal) (status : Nat),
      api_generate_graph model_present resp parse body = ApiResp.ok payload status →
      ∀ d, payload = PyVal.dict d → "mocked" ∉ d.map Prod.fst := by
  intro mp resp parse body payload status h d hd
  subst hd
  simp only [api_generate_graph] at h
  by_cases hp : (!pyTruthy ((dget body "prompt").getD PyVal.null)) = true
  · rw [if_pos hp] at h
    exact ApiResp.noConfusion h
  · rw [if_neg hp] at h
    by_cases hm : (!mp) = true
    · rw [if_pos hm] at h
      exact ApiResp.noConfusion h
    · rw [if_neg hm] at h
      cases hw : wants_modify ((dget body "existingGraph").getD PyVal.null) with
      | error e =>
          rw [hw] at h
          exact ApiResp.noConfusion h
      | ok b =>
          rw [hw] at h
          cases b with
          | true =>
              injection h with h1 h2
              cases hg : modify_or_replace_graph mp resp parse
                  ((dget body "existingGraph").getD PyVal.null)
                  (pyStr ((dget body "prompt").getD PyVal.null)) with
              | dict e =>
                  refine popMocked_no_marker _ d ?_ ⟨e, rfl⟩
                  rw [← hg, h1]
              | null => rw [hg] at h1; simp [popMocked] at h1
              | bool bb => rw [hg] at h1; simp [popMocked] at h1
              | int n => rw [hg] at h1; simp [popMocked] at h1
              | str st => rw [hg] at h1; simp [popMocked] at h1
              | list l => rw [hg] at h1; simp [popMocked] at h1
          | false =>
              injection h with h1 h2
              cases hg : generate_graph_from_scratch mp resp parse
                  (pyStr ((dget body "prompt").getD PyVal.null)) with
              | dict e =>
                  refine popMocked_no_marker _ d ?_ ⟨e, rfl⟩
                  rw [← hg, h1]
              | null => rw [hg] at h1; simp [popMocked] at h1
              | bool bb => rw [hg] at h1; simp [popMocked] at h1
              | int n => rw [hg] at h1; simp [popMocked] at h1
              | str st => rw [hg] at h1; simp [popMocked] at h1
              | list l => rw [hg] at h1; simp [popMocked] at h1

/-- A toy parser returning a valid graph that itself carries a "mocked"
key, to exercise the unconditional marker pop. -/
def markedGraphParse (_s : String) : Option PyVal :=
  some (PyVal.dict [("nodes", PyVal.list []), ("edges", PyVal.list []),
    ("mocked", PyVal.bool true)])

/-- C9 (witness): at a concrete request whose validated model-produced
graph carries a "mocked" key, the 200 payload has no "mocked" key. -/
theorem C9_no_marker_in_response_witness :
    "mocked" ∉
      ([("nodes", PyVal.list []), ("edges", PyVal.list [])].map Prod.fst) :=
  C9_no_marker_in_response true (ModelResp.text "\x7b\x7d") markedGraphParse
    [("prompt", PyVal.str "x")]
    (PyVal.dict [("nodes", PyVal.list []), ("edges", PyVal.list [])]) 200 rfl
    [("nodes", PyVal.list []), ("edges", PyVal.list [])] rfl

/-- C10: each node's stack line is rendered as "- label: details", where
the label is the data label when present, else the node id when the id is
present and truthy, else "Unknown Component"; the details default to
"No details provided" when absent; and the stack list renders one such
line for every node, raising no error. -/
theorem C10_stack_lines :
    (∀ (nd dd : List (String × PyVal)) (l : PyVal),
      dget nd "data" = some (PyVal.dict dd) → dget dd "label" = some l →
      nodeLabelVal (PyVal.dict nd) = l) ∧
    (∀ (nd dd : List (String × PyVal)) (i : PyVal),
      dget nd "data" = some (PyVal.dict dd) → dget dd "label" = none →
      dget nd "id" = some i → pyTruthy i = true →
      nodeLabelVal (PyVal.dict nd) = i) ∧
    (∀ (nd dd : List (String × PyVal)),
      dget nd "data" = some (PyVal.dict dd) → dget dd "label" = none →
      dget nd "id" = none →
      nodeLabelVal (PyVal.dict nd) = PyVal.str "Unknown Component") ∧
    (∀ (nd : List (String × PyVal)) (i : PyVal),
      dget nd "data" = none → dget nd "id" = some i → pyTruthy i = true →
      nodeLabelVal (PyVal.dict nd) = i) ∧
    (∀ (nd dd : List (String × PyVal)) (dts : PyVal),
      dget nd "data" = some (PyVal.dict dd) → dget dd "details" = some dts →
      nodeDetailsVal (PyVal.dict nd) = dts) ∧
    (∀ (nd dd : List (String × PyVal)),
      dget nd "data" = some (PyVal.dict dd) → dget dd "details" = none →
      nodeDetailsVal (PyVal.dict nd) = PyVal.str "No details provided") ∧
    (∀ nd : List (String × PyVal),
      dget nd "data" = none →
      nodeDetailsVal (PyVal.dict nd) = PyVal.str "No details provided") ∧
    (∀ node : PyVal,
      stackLine node = "- " ++ pyStr (nodeLabelVal node) ++ ": " ++
        pyStr (nodeDetailsVal node)) ∧
    (∀ nodes : List PyVal, stackItems nodes = nodes.map stackLine) := by
  refine ⟨?_, ?_, ?_, ?_, ?_, ?_, ?_, ?_, ?_⟩
  · intro nd dd l hdata hl
    simp [nodeLabelVal, pyGet, pyGetD, hdata, hl]
  · intro nd dd i hdata hl hid htr
    simp [nodeLabelVal, pyGet, pyGetD, hdata, hl, hid, htr]
  · intro nd dd hdata hl hid
    simp [nodeLabelVal, pyGet, pyGetD, hdata, hl, hid, pyTruthy]
  · intro nd i hdata hid htr
    simp only [nodeLabelVal, pyGet, pyGetD, hdata, hid, htr]
    simp [htr]
    rfl
  · intro nd dd dts hdata hdts
    simp [nodeDetailsVal, pyGet, pyGetD, hdata, hdts]
  · intro nd dd hdata hdts
    simp [nodeDetailsVal, pyGet, pyGetD, hdata, hdts]
  · intro nd hdata
    simp only [nodeDetailsVal, pyGet, pyGetD, hdata]
    rfl
  · intro node
    rfl
  · intro nodes
    rfl

/-- C10 (witness): a node with an id but no data block renders with the id
as label and the default details. -/
theorem C10_stack_lines_witness :
    nodeLabelVal (PyVal.dict [("id", PyVal.str "a")]) = PyVal.str "a" ∧
    nodeDetailsVal (PyVal.dict [("id", PyVal.str "a")]) =
      PyVal.str "No details provided" ∧
    nodeLabelVal (PyVal.dict [("data", PyVal.dict [])]) =
      PyVal.str "Unknown Component" :=
  ⟨C10_stack_lines.2.2.2.1 [("id", PyVal.str "a")] (PyVal.str "a") rfl rfl rfl,
   C10_stack_lines.2.2.2.2.2.2.1 [("id", PyVal.str "a")] rfl,
   C10_stack_lines.2.2.1 [("data", PyVal.dict [])] [] rfl rfl rfl⟩
